import Mathlib

/-!
Verification of the G-code rapid-move converter (`converter.py`).

The embedding models a text line as a `List Char`.  Numeric values that the
Python program holds as floats are modelled as rationals (`ℚ`); the only real
(`ℝ`) quantities are the Euclidean distance and the elapsed time, which the
program obtains through a square root.  The Python regular expressions used by
the program are embedded as explicit character scanners with the same
first-match / greedy semantics on the strings the program actually feeds them
(single lines, which contain no interior newline: `readlines` splits on them).
-/

set_option maxRecDepth 4000

namespace GCode

/-- The characters Python's `str.strip()` / `\s` treat as whitespace (ASCII). -/
def isPySpace (c : Char) : Bool :=
  c = ' ' || c = '\t' || c = '\n' || c = '\r' || c = Char.ofNat 11 || c = Char.ofNat 12

/-- A regex word character (`\w`, ASCII): letter, digit or underscore. -/
def isWordChar (c : Char) : Bool :=
  c.isAlpha || c.isDigit || c = '_'

/-- Python `str.strip()`: drop leading and trailing whitespace. -/
def strip (l : List Char) : List Char :=
  ((l.dropWhile isPySpace).reverse.dropWhile isPySpace).reverse

/-- Helper for `re.sub(r'\(.*?\)', '', line)`: from the characters after a
`'('`, find the first `')'` (`.` does not cross a newline) and return the
suffix after it. -/
def findClose : List Char → Option (List Char)
  | [] => none
  | c :: rest =>
    if c = ')' then some rest
    else if c = '\n' then none
    else findClose rest

/-- Embeds `re.sub(r'\\(.*?\\)', '', line)`, fuelled so the recursion is structural
(each step consumes at least one character, so `fuel = length` never runs
out): delete each parenthesised comment (non-greedy: up to the nearest `')'`),
scanning left to right; a `'('` with no reachable `')'` is kept and scanning
resumes after it. -/
def removeParenGo : ℕ → List Char → List Char
  | 0, l => l
  | _ + 1, [] => []
  | fuel + 1, c :: rest =>
    if c = '(' then
      match findClose rest with
      | some r => removeParenGo fuel r
      | none => c :: removeParenGo fuel rest
    else c :: removeParenGo fuel rest

def removeParen (l : List Char) : List Char := removeParenGo l.length l

/-- Embeds `re.sub(r';.*$', '', line)` on a newline-free string: keep the part
before the first `';'`. -/
def removeSemi (l : List Char) : List Char :=
  l.takeWhile (fun c => c ≠ ';')

/-- Numeric value of a digit string (e.g. `['0','1','2']` gives `12`). -/
def natOfDigits (ds : List Char) : ℕ :=
  ds.foldl (fun n c => 10 * n + (c.toNat - 48)) 0

/-- Is the first character a digit? -/
def headIsDigit : List Char → Bool
  | [] => false
  | c :: _ => c.isDigit

/-- Is the first character a word character? (used for `\b` checks) -/
def headIsWord : List Char → Bool
  | [] => false
  | c :: _ => isWordChar c

/-- Match the regex `\d*\.?\d+` (greedy, with backtracking) at the head of the
list: returns the value and the remaining characters, or `none` when the
pattern cannot match here. -/
def matchUNum (l : List Char) : Option (ℚ × List Char) :=
  let a := l.takeWhile Char.isDigit
  let r1 := l.dropWhile Char.isDigit
  match r1 with
  | '.' :: r2 =>
    let b := r2.takeWhile Char.isDigit
    if b ≠ [] then
      some ((natOfDigits a : ℚ) + (natOfDigits b : ℚ) / 10 ^ b.length,
            r2.dropWhile Char.isDigit)
    else if a ≠ [] then some ((natOfDigits a : ℚ), r1) else none
  | _ => if a ≠ [] then some ((natOfDigits a : ℚ), r1) else none

/-- Match the regex `[-+]?\d*\.?\d+` at the head of the list. -/
def matchNum (l : List Char) : Option (ℚ × List Char) :=
  match l with
  | '-' :: rest => (matchUNum rest).map (fun p => (-p.1, p.2))
  | '+' :: rest => matchUNum rest
  | _ => matchUNum l

/-- Embeds `re.search(r'G0*(\d+)', line, re.IGNORECASE)`: first `G`/`g` immediately
followed by a digit; the captured value is the integer value of the maximal
digit run after it (leading zeros removed by `0*` do not change the value). -/
def findG : List Char → Option ℕ
  | [] => none
  | c :: rest =>
    if (c = 'G' || c = 'g') && headIsDigit rest then
      some (natOfDigits (rest.takeWhile Char.isDigit))
    else findG rest

/-- Embeds `re.search(r'M(\d+)', line, re.IGNORECASE)`. -/
def findM : List Char → Option ℕ
  | [] => none
  | c :: rest =>
    if (c = 'M' || c = 'm') && headIsDigit rest then
      some (natOfDigits (rest.takeWhile Char.isDigit))
    else findM rest

/-- Embeds `re.search(r'S(\d+)', line, re.IGNORECASE)`. -/
def findS : List Char → Option ℕ
  | [] => none
  | c :: rest =>
    if (c = 'S' || c = 's') && headIsDigit rest then
      some (natOfDigits (rest.takeWhile Char.isDigit))
    else findS rest

/-- Embeds the axis search `rf'{axis}([-+]?\d*\.?\d+)'` with `re.IGNORECASE`:
first occurrence of the axis letter (either case) followed by a signed
decimal number.  A letter not followed by a valid number is skipped, as
`re.search` keeps scanning. -/
def findAxis (up lo : Char) : List Char → Option ℚ
  | [] => none
  | c :: rest =>
    if c = up || c = lo then
      match matchNum rest with
      | some (v, _) => some v
      | none => findAxis up lo rest
    else findAxis up lo rest

/-- The fields of a parsed command line (the keys of the Python result dict).
`original` is the cleaned line retained under the `'original'` key. -/
structure Fields where
  original : List Char
  G : Option ℕ
  M : Option ℕ
  X : Option ℚ
  Y : Option ℚ
  Z : Option ℚ
  I : Option ℚ
  J : Option ℚ
  K : Option ℚ
  R : Option ℚ
  F : Option ℚ
  S : Option ℕ
deriving DecidableEq

/-- Result of `GCodeSimulator.parse_line`: either `{'type': 'empty'}` or a
command record. -/
inductive Parsed where
  | empty : Parsed
  | command : Fields → Parsed
deriving DecidableEq

def Parsed.getG : Parsed → Option ℕ
  | .empty => none
  | .command f => f.G

def Parsed.getM : Parsed → Option ℕ
  | .empty => none
  | .command f => f.M

def Parsed.getX : Parsed → Option ℚ
  | .empty => none
  | .command f => f.X

def Parsed.getY : Parsed → Option ℚ
  | .empty => none
  | .command f => f.Y

def Parsed.getZ : Parsed → Option ℚ
  | .empty => none
  | .command f => f.Z

def Parsed.getI : Parsed → Option ℚ
  | .empty => none
  | .command f => f.I

def Parsed.getJ : Parsed → Option ℚ
  | .empty => none
  | .command f => f.J

def Parsed.getK : Parsed → Option ℚ
  | .empty => none
  | .command f => f.K

def Parsed.getR : Parsed → Option ℚ
  | .empty => none
  | .command f => f.R

def Parsed.getF : Parsed → Option ℚ
  | .empty => none
  | .command f => f.F

def Parsed.getS : Parsed → Option ℕ
  | .empty => none
  | .command f => f.S

/-- Embeds `GCodeSimulator.parse_line`: strip, delete comments, strip again; an empty
remainder yields `empty`, otherwise the recognised fields are extracted. -/
def parse_line (l : List Char) : Parsed :=
  let c := strip (removeSemi (removeParen (strip l)))
  if c = [] then Parsed.empty
  else Parsed.command
    { original := c
      G := findG c
      M := findM c
      X := findAxis 'X' 'x' c
      Y := findAxis 'Y' 'y' c
      Z := findAxis 'Z' 'z' c
      I := findAxis 'I' 'i' c
      J := findAxis 'J' 'j' c
      K := findAxis 'K' 'k' c
      R := findAxis 'R' 'r' c
      F := findAxis 'F' 'f' c
      S := findS c }

/-- Characters of a string literal. -/
def chars (s : String) : List Char := s.data

example : (parse_line (chars "G1 X10 Y10")).getG = some 1 := by with_unfolding_all decide
example : (parse_line (chars "G1 X10 Y10")).getX = some 10 := by with_unfolding_all decide
example : (parse_line (chars "  ( comment ) ")).getG = none := by with_unfolding_all decide
example : parse_line (chars " ; only a comment") = Parsed.empty := by with_unfolding_all decide
example : (parse_line (chars "g01 z-2.5 F600")).getZ = some (-(5/2)) := by with_unfolding_all decide
example : (parse_line (chars "g01 z-2.5 F600")).getF = some 600 := by with_unfolding_all decide
example : (parse_line (chars "G00 X1")).getG = some 0 := by with_unfolding_all decide
example : (parse_line (chars "N10 G1 X5. (move) S1000")).getX = some 5 := by with_unfolding_all decide
example : (parse_line (chars "N10 G1 X5. (move) S1000")).getS = some 1000 := by with_unfolding_all decide
example : (parse_line (chars "M30")).getM = some 30 := by with_unfolding_all decide

/-- Embeds `re.search(r'\bG0*\d+', stripped, re.IGNORECASE)` as a Boolean: is there a
`G`/`g` at a word boundary followed by at least one digit?  (`0*\d+` matches
exactly when at least one digit follows.)  `prevWord` says whether the
character before the current position is a word character. -/
def hasGCommandGo : Bool → List Char → Bool
  | _, [] => false
  | prevWord, c :: rest =>
    if (c = 'G' || c = 'g') && !prevWord && headIsDigit rest then true
    else hasGCommandGo (isWordChar c) rest

def hasGCommand (l : List Char) : Bool := hasGCommandGo false l

/-- Try to match the regex `0*1\b` at the head of the list (what follows a
word-boundary `G` in `re.sub(r'\bG0*1\b', 'G0', ...)`); returns the suffix
after the match.  Greedy `0*` with backtracking: the first non-`'0'`
character must be `'1'`, followed by a non-word character or the end. -/
def matchZerosOne (l : List Char) : Option (List Char) :=
  match l.dropWhile (fun c => c = '0') with
  | '1' :: rest => if headIsWord rest then none else some rest
  | _ => none

/-- Embeds `re.sub(r'\bG0*1\b', 'G0', stripped, flags=re.IGNORECASE)`, fuelled so the
recursion is structural (each step consumes at least one character, so
`fuel = length` never runs out): replace every word-boundary `G1`/`G01`/...
token by `G0`, scanning left to right past each match (the character before a
later position is then the matched `'1'`, a word character). -/
def replaceG1Go : ℕ → Bool → List Char → List Char
  | 0, _, l => l
  | _ + 1, _, [] => []
  | fuel + 1, prevWord, c :: rest =>
    if (c = 'G' || c = 'g') && !prevWord then
      match matchZerosOne rest with
      | some r => 'G' :: '0' :: replaceG1Go fuel true r
      | none => c :: replaceG1Go fuel (isWordChar c) rest
    else c :: replaceG1Go fuel (isWordChar c) rest

def replaceG1 (l : List Char) : List Char := replaceG1Go l.length false l

/-- Try to match the regex `\s*F[-+]?\d*\.?\d+` at the current position:
greedy whitespace, then `F`/`f`, then a signed decimal number; returns the
suffix after the match.  (If the maximal whitespace run is not followed by a
matching `F` token the position fails; `re.search` then advances into the
run, where the same check fails again, so scanning one position at a time
agrees with the regex.) -/
def matchFtoken (l : List Char) : Option (List Char) :=
  match l.dropWhile isPySpace with
  | c :: rest =>
    if c = 'F' || c = 'f' then (matchNum rest).map (fun p => p.2) else none
  | [] => none

/-- Embeds `re.sub(r'\s*F[-+]?\d*\.?\d+', '', new_line, flags=re.IGNORECASE)`,
fuelled so the recursion is structural (each match consumes at least one
character): delete every feed-rate token together with the whitespace before
it. -/
def stripFGo : ℕ → List Char → List Char
  | 0, l => l
  | _ + 1, [] => []
  | fuel + 1, c :: rest =>
    match matchFtoken (c :: rest) with
    | some r => stripFGo fuel r
    | none => c :: stripFGo fuel rest

def stripF (l : List Char) : List Char := stripFGo l.length l

example : replaceG1 (chars "g01 X5 F100") = chars "G0 X5 F100" := by
  with_unfolding_all decide
example : stripF (chars "G0 X5 F100") = chars "G0 X5" := by
  with_unfolding_all decide
example : replaceG1 (chars "G10 Z5") = chars "G10 Z5" := by
  with_unfolding_all decide
example : hasGCommand (chars "X1G1") = false := by with_unfolding_all decide
example : hasGCommand (chars "  G01") = true := by with_unfolding_all decide
example : stripF (chars "G1F5.Z2") = chars "G1.Z2" := by with_unfolding_all decide

/-- Plane selection (`G17`/`G18`/`G19`). -/
inductive Plane where
  | XY : Plane
  | XZ : Plane
  | YZ : Plane
deriving DecidableEq

/-- Move kind: `rapid` for `G0` moves, `feed` otherwise (the `'type'` key of a move
record). -/
inductive MoveType where
  | rapid : MoveType
  | feed : MoveType
deriving DecidableEq, Inhabited

/-- The `MachineState`: the mutable machine state of the simulator.  Coordinates,
rates and the safe height are rationals (the Python floats, idealised);
`work_coordinate` stores the number of the `G54`..`G59` string; only the
accumulated time is a real number. -/
structure MachineState where
  x : ℚ := 0
  y : ℚ := 0
  z : ℚ := 0
  current_g : Option ℕ := none
  feed_rate : Option ℚ := none
  spindle_speed : Option ℕ := none
  absolute_mode : Bool := true
  units_mm : Bool := true
  plane : Plane := Plane.XY
  work_coordinate : ℕ := 54
  total_time_seconds : ℝ := 0

/-- The state a fresh `GCodeSimulator` starts with. -/
def initialState : MachineState := {}

/-- A move record (`move_info` dict): kind, start and end point, the feed
rate stored for the move, Euclidean distance and elapsed seconds. -/
structure MoveInfo where
  type : MoveType
  fromPos : ℚ × ℚ × ℚ
  toPos : ℚ × ℚ × ℚ
  feed_rate : Option ℚ
  distance : ℝ
  time_s : ℝ
deriving Inhabited

/-- Modal `G` updates of `execute_line` (motion mode, G90/G91, G21/G20,
G17/G18/G19, G54..G59), applied when the parsed line carries a `G` value. -/
def applyModalG (state : MachineState) (parsed : Parsed) : MachineState :=
  match parsed.getG with
  | none => state
  | some g =>
    if g = 0 ∨ g = 1 ∨ g = 2 ∨ g = 3 then { state with current_g := some g }
    else if g = 90 then { state with absolute_mode := true }
    else if g = 91 then { state with absolute_mode := false }
    else if g = 21 then { state with units_mm := true }
    else if g = 20 then { state with units_mm := false }
    else if g = 17 then { state with plane := Plane.XY }
    else if g = 18 then { state with plane := Plane.XZ }
    else if g = 19 then { state with plane := Plane.YZ }
    else if g = 54 ∨ g = 55 ∨ g = 56 ∨ g = 57 ∨ g = 58 ∨ g = 59 then
      { state with work_coordinate := g }
    else state

/-- The modal updates of `execute_line` before motion: the `G` families, then
`F` into `feed_rate`, then `S` into `spindle_speed`. -/
def postModalState (state : MachineState) (parsed : Parsed) : MachineState :=
  let s1 := applyModalG state parsed
  let s2 := match parsed.getF with
    | some f => { s1 with feed_rate := some f }
    | none => s1
  match parsed.getS with
  | some s => { s2 with spindle_speed := some s }
  | none => s2

/-- One axis of the candidate position: the raw value in absolute mode, the
current value plus the raw value in relative mode, the current value when the
field is absent. -/
def new_coord (absolute : Bool) (cur : ℚ) : Option ℚ → ℚ
  | some v => if absolute then v else cur + v
  | none => cur

/-- The rate selection of `execute_line`: the fixed rapid-traverse rate for
`G0`, else the current feed rate (default 1.0) for `G1`/`G2`/`G3`, else the
`0.0` initialisation. -/
def moveRate (rapid_traverse_rate : ℚ) (state : MachineState) : ℚ :=
  if state.current_g = some 0 then rapid_traverse_rate
  else if state.current_g = some 1 ∨ state.current_g = some 2 ∨ state.current_g = some 3 then
    (state.feed_rate).getD 1
  else 0

/-- Embeds `GCodeSimulator.execute_line`: parse, handle the `G10`+`Z` probe reset,
apply modal updates, then execute motion when the (updated) modal motion mode
is one of 0..3 and the candidate position differs from the current one. -/
noncomputable def execute_line (rapid_traverse_rate : ℚ) (state : MachineState)
    (line : List Char) : MachineState × Option MoveInfo :=
  let parsed := parse_line line
  if parsed.getG = some 10 ∧ parsed.getZ ≠ none then
    ({ state with z := (parsed.getZ).getD 0 }, none)
  else
    let st1 := postModalState state parsed
    if st1.current_g = some 0 ∨ st1.current_g = some 1 ∨ st1.current_g = some 2 ∨
        st1.current_g = some 3 then
      let nx := new_coord st1.absolute_mode st1.x parsed.getX
      let ny := new_coord st1.absolute_mode st1.y parsed.getY
      let nz := new_coord st1.absolute_mode st1.z parsed.getZ
      if nx ≠ st1.x ∨ ny ≠ st1.y ∨ nz ≠ st1.z then
        let d2 : ℚ := (nx - st1.x) ^ 2 + (ny - st1.y) ^ 2 + (nz - st1.z) ^ 2
        let distance : ℝ := Real.sqrt (d2 : ℝ)
        let rate := moveRate rapid_traverse_rate st1
        let time_s : ℝ := (if 0 < rate then distance / (rate : ℝ) else 0) * 60
        ({ st1 with
            x := nx, y := ny, z := nz,
            total_time_seconds := st1.total_time_seconds + time_s },
         some {
            type := if st1.current_g = some 0 then MoveType.rapid else MoveType.feed,
            fromPos := (st1.x, st1.y, st1.z),
            toPos := (nx, ny, nz),
            feed_rate := if st1.current_g = some 0 then none else st1.feed_rate,
            distance := distance,
            time_s := time_s })
      else (st1, none)
    else (st1, none)

/-- Embeds `GCodeConverter.should_convert_to_rapid`: convert a `G1` move to `G0`
only if fully above the safe Z height.  `parsed.get('G', state.current_g)` is
the line's `G` when present, else the modal motion mode. -/
def should_convert_to_rapid (z_safe : ℚ) (conservative : Bool) (parsed : Parsed)
    (state : MachineState) : Bool :=
  let current_g : Option ℕ := match parsed.getG with
    | some g => some g
    | none => state.current_g
  if current_g ≠ some 1 then false
  else if parsed.getX = none ∧ parsed.getY = none ∧ parsed.getZ = none then false
  else
    let target_z : ℚ := match parsed.getZ with
      | some v => if state.absolute_mode then v else state.z + v
      | none => state.z
    if state.z ≥ z_safe ∧ target_z ≥ z_safe then
      if conservative = true ∧ parsed.getZ = none then true
      else if parsed.getZ ≠ none ∧ target_z ≥ state.z then true
      else if conservative = false then true
      else false
    else false

/-- Embeds `GCodeConverter.convert_line`: return the line unchanged when it parses
as empty or the decision engine refuses; otherwise rewrite the `G1` token to
`G0` (or prepend `G0 ` when the line has no word-boundary `G` token), strip
feed-rate tokens, and restore a trailing newline. -/
def convert_line (z_safe : ℚ) (conservative : Bool) (line : List Char)
    (state : MachineState) : List Char × Bool :=
  let stripped := strip line
  let parsed := parse_line stripped
  if parsed = Parsed.empty then (line, false)
  else if should_convert_to_rapid z_safe conservative parsed state = false then (line, false)
  else
    let new1 := if hasGCommand stripped = true then replaceG1 stripped
      else 'G' :: '0' :: ' ' :: stripped
    let new2 := stripF new1
    let new3 := if line.getLast? = some '\n' then new2 ++ ['\n'] else new2
    (new3, true)

/-- A conversion record logged by `convert_file` (1-based line number,
stripped original, stripped converted text, pre-execution Z). -/
structure ConversionRecord where
  line_num : ℕ
  original : List Char
  converted : List Char
  z_position : ℚ
deriving DecidableEq

/-- The data the orchestrator loop accumulates: output lines, conversion
records, move history, and the final machine state. -/
structure LoopResult where
  outputs : List (List Char)
  conversions : List ConversionRecord
  moves : List MoveInfo
  final : MachineState

/-- The body of `GCodeConverter.convert_file`, one iteration per line:
attempt conversion against the pre-line state, inject `G1 ` when the
previous line was converted and this unconverted line is a modal motion
(coordinates but no `G`), emit the output line, log a conversion record,
execute the decided text in the simulator, and carry the converted flag to
the next line. -/
noncomputable def convertLoop (z_safe : ℚ) (conservative : Bool) (rapid_rate : ℚ) :
    MachineState → Bool → ℕ → List (List Char) → LoopResult
  | st, _, _, [] => ⟨[], [], [], st⟩
  | st, was_prev_converted, line_num, line :: rest =>
    let stripped := strip line
    let cl := convert_line z_safe conservative line st
    let parsed := parse_line stripped
    let inject : Bool :=
      if cl.2 = false ∧
          (parsed.getX ≠ none ∨ parsed.getY ≠ none ∨ parsed.getZ ≠ none ∨
           parsed.getI ≠ none ∨ parsed.getJ ≠ none ∨ parsed.getK ≠ none) ∧
          parsed.getG = none ∧ was_prev_converted = true then true else false
    let injected := 'G' :: '1' :: ' ' :: stripped ++
      (if line.getLast? = some '\n' then ['\n'] else [])
    let out_line := if inject = true then injected else cl.1
    let exec_line := if inject = true then injected else
      (if cl.2 = true then cl.1 else line)
    let res := execute_line rapid_rate st exec_line
    let recs : List ConversionRecord :=
      if cl.2 = true then [⟨line_num, stripped, strip cl.1, st.z⟩] else []
    let t := convertLoop z_safe conservative rapid_rate res.1 cl.2 (line_num + 1) rest
    ⟨out_line :: t.outputs, recs ++ t.conversions, res.2.toList ++ t.moves, t.final⟩

/-- What `GCodeConverter.convert_file` returns (plus the rewritten lines and
the final simulator state): total line count, conversion records, move
history. -/
structure ConvertResult where
  total_lines : ℕ
  output_lines : List (List Char)
  conversions : List ConversionRecord
  move_history : List MoveInfo
  final_state : MachineState

/-- Embeds `GCodeConverter.convert_file` on the list of raw lines, starting from a
fresh simulator with `was_prev_line_converted = False` and 1-based line
numbers. -/
noncomputable def convert_file (z_safe : ℚ) (conservative : Bool) (rapid_rate : ℚ)
    (lines : List (List Char)) : ConvertResult :=
  let r := convertLoop z_safe conservative rapid_rate initialState false 1 lines
  ⟨lines.length, r.outputs, r.conversions, r.moves, r.final⟩

/-! ## Specification-side definitions (worded from the claims, for the
theorems below) -/

/-- The decision rule of the claim, phrased as the spec words it: effective G
(the line's `G` if present, else the modal motion mode) is exactly 1; some
coordinate among X/Y/Z is present; current Z and target Z (computed as the
simulator would, via `new_coord`) are at or above the safe threshold; and the
conservative/aggressive direction rule holds. -/
def shouldConvertSpec (z_safe : ℚ) (conservative : Bool) (p : Parsed)
    (st : MachineState) : Prop :=
  (match p.getG with | some g => some g | none => st.current_g) = some 1 ∧
  (p.getX ≠ none ∨ p.getY ≠ none ∨ p.getZ ≠ none) ∧
  z_safe ≤ st.z ∧ z_safe ≤ new_coord st.absolute_mode st.z p.getZ ∧
  ((conservative = true ∧ p.getZ = none) ∨
   (p.getZ ≠ none ∧ st.z ≤ new_coord st.absolute_mode st.z p.getZ) ∨
   conservative = false)

/-- The text the orchestrator substitutes for a modal motion line after a
conversion: `'G1 ' + stripped_line` with the trailing newline restored. -/
def injectedLine (line : List Char) : List Char :=
  'G' :: '1' :: ' ' :: strip line ++
    (if line.getLast? = some '\n' then ['\n'] else [])

/-- The trailing line-ending run (`'\r'`/`'\n'` characters) of a line, used
to state what "line-ending style" means. -/
def lineEnding (l : List Char) : List Char :=
  (l.reverse.takeWhile (fun c => c = '\r' || c = '\n')).reverse

/-- The rate the spec says a move uses: the fixed rapid rate when the active
(post-modal-update) motion mode is 0, else the current feed rate if set, else
the fallback 1.0. -/
def rateSpec (rapid : ℚ) (st : MachineState) (l : List Char) : ℚ :=
  if (postModalState st (parse_line l)).current_g = some 0 then rapid
  else ((postModalState st (parse_line l)).feed_rate).getD 1

/-! ## Helper lemmas -/

theorem applyModalG_total (st : MachineState) (p : Parsed) :
    (applyModalG st p).total_time_seconds = st.total_time_seconds := by
  unfold applyModalG
  split
  · rfl
  · split_ifs <;> rfl

theorem postModalState_total (st : MachineState) (p : Parsed) :
    (postModalState st p).total_time_seconds = st.total_time_seconds := by
  unfold postModalState
  cases hF : p.getF <;> cases hS : p.getS <;>
    simp [hF, hS, applyModalG_total]

/-! ## Claim theorems -/

/-- C1: `should_convert_to_rapid` returns true exactly when the effective G
is 1, at least one of X/Y/Z is present, both current Z and target Z (computed
as the simulator would) are at or above the safe threshold, and either
(a) conservative mode is on and the line has no Z field, or (b) the line has
a Z field and target Z is at least current Z, or (c) conservative mode is
off. -/
theorem claim1_should_convert_iff (z_safe : ℚ) (conservative : Bool)
    (p : Parsed) (st : MachineState) :
    should_convert_to_rapid z_safe conservative p st = true ↔
      shouldConvertSpec z_safe conservative p st := by
  cases hz : p.getZ <;>
    simp only [should_convert_to_rapid, shouldConvertSpec, new_coord, hz] <;>
    split_ifs <;> simp_all <;> tauto

/-- C5: a line parsing to `G10` with a `Z` field sets the state's Z directly
to the parsed value and changes nothing else: no modal, feed, spindle or
X/Y update, no time accumulation, and no move record. -/
theorem claim5_g10_probe (rapid : ℚ) (st : MachineState) (l : List Char) (zv : ℚ)
    (h1 : (parse_line l).getG = some 10) (h2 : (parse_line l).getZ = some zv) :
    execute_line rapid st l = ({ st with z := zv }, none) := by
  simp [execute_line, h1, h2]

theorem claim5_witness :
    (parse_line (chars "G10 Z5")).getG = some 10 ∧
    (parse_line (chars "G10 Z5")).getZ = some 5 ∧
    execute_line 5000 initialState (chars "G10 Z5") =
      ({ initialState with z := 5 }, none) :=
  ⟨by with_unfolding_all decide, by with_unfolding_all decide,
   claim5_g10_probe 5000 initialState (chars "G10 Z5") 5
     (by with_unfolding_all decide) (by with_unfolding_all decide)⟩

/-- C6: `total_time_seconds` never decreases across `execute_line`, for every
line and every machine state (including zero or negative feed rates). -/
theorem claim6_time_monotone (rapid : ℚ) (st : MachineState) (l : List Char) :
    st.total_time_seconds ≤ (execute_line rapid st l).1.total_time_seconds := by
  by_cases h10 : (parse_line l).getG = some 10 ∧ (parse_line l).getZ ≠ none
  · simp [execute_line, h10]
  · by_cases hmode : (postModalState st (parse_line l)).current_g = some 0 ∨
        (postModalState st (parse_line l)).current_g = some 1 ∨
        (postModalState st (parse_line l)).current_g = some 2 ∨
        (postModalState st (parse_line l)).current_g = some 3
    · by_cases hmove :
          new_coord (postModalState st (parse_line l)).absolute_mode
              (postModalState st (parse_line l)).x (parse_line l).getX ≠
            (postModalState st (parse_line l)).x ∨
          new_coord (postModalState st (parse_line l)).absolute_mode
              (postModalState st (parse_line l)).y (parse_line l).getY ≠
            (postModalState st (parse_line l)).y ∨
          new_coord (postModalState st (parse_line l)).absolute_mode
              (postModalState st (parse_line l)).z (parse_line l).getZ ≠
            (postModalState st (parse_line l)).z
      · simp only [execute_line, h10, hmode, hmove, if_true, if_false, ite_true, ite_false]
        rw [← postModalState_total st (parse_line l)]
        apply le_add_of_nonneg_right
        apply mul_nonneg _ (by norm_num)
        split_ifs with hr
        · exact div_nonneg (Real.sqrt_nonneg _) (le_of_lt (by exact_mod_cast hr))
        · exact le_refl 0
      · simp [execute_line, h10, hmode, hmove, postModalState_total]
    · simp [execute_line, h10, hmode, postModalState_total]

/-- C10: a conversion with zero displacement.  In absolute, conservative mode
with the state at Z = 20 (set by a G10 probe line) and safe Z = 17, the line
`G1 Z20` is approved by `should_convert_to_rapid`, rewritten to `G0 Z20` with
a conversion record logged, yet executing the rewritten line yields no move
record and adds no time. -/
theorem claim10_zero_displacement_conversion :
    should_convert_to_rapid 17 true (parse_line (chars "G1 Z20"))
      { initialState with z := 20 } = true ∧
    (convert_file 17 true 5000 [chars "G10 Z20", chars "G1 Z20"]).output_lines =
      [chars "G10 Z20", chars "G0 Z20"] ∧
    (convert_file 17 true 5000 [chars "G10 Z20", chars "G1 Z20"]).conversions =
      [⟨2, chars "G1 Z20", chars "G0 Z20", 20⟩] ∧
    (convert_file 17 true 5000 [chars "G10 Z20", chars "G1 Z20"]).move_history.length = 0 ∧
    (convert_file 17 true 5000
        [chars "G10 Z20", chars "G1 Z20"]).final_state.total_time_seconds = 0 :=
  ⟨by with_unfolding_all decide, by with_unfolding_all decide,
   by with_unfolding_all decide, by with_unfolding_all decide, rfl⟩

/-- C9: the previous-line-converted flag is overwritten on every iteration,
including blank/comment lines.  In the run below, line 2 (`G1 Z25`) is
converted, line 3 is comment-only, and line 4 (`X10 Y10`, coordinates but no
G token) receives no `G1` injection and is executed by the simulator as a
rapid under the modal `G0` left by the conversion. -/
theorem claim9_flag_reset_by_comment_line :
    (convert_file 17 true 5000
        [chars "G1 Z20", chars "G1 Z25", chars "(comment)", chars "X10 Y10"]).output_lines =
      [chars "G1 Z20", chars "G0 Z25", chars "(comment)", chars "X10 Y10"] ∧
    (convert_file 17 true 5000
        [chars "G1 Z20", chars "G1 Z25", chars "(comment)", chars "X10 Y10"]).conversions =
      [⟨2, chars "G1 Z25", chars "G0 Z25", 20⟩] ∧
    (convert_file 17 true 5000
        [chars "G1 Z20", chars "G1 Z25", chars "(comment)", chars "X10 Y10"]).move_history.length
      = 3 ∧
    ((convert_file 17 true 5000
        [chars "G1 Z20", chars "G1 Z25", chars "(comment)", chars "X10 Y10"]).move_history.getD 2
          default).type = MoveType.rapid ∧
    ((convert_file 17 true 5000
        [chars "G1 Z20", chars "G1 Z25", chars "(comment)", chars "X10 Y10"]).move_history.getD 2
          default).toPos = (10, 10, 25) :=
  ⟨by with_unfolding_all decide, by with_unfolding_all decide,
   by with_unfolding_all decide, by with_unfolding_all decide,
   by with_unfolding_all decide⟩

/-- C3: `convert_line` returns the input unchanged with `converted = false`
when the line parses as empty or the decision refuses; when the decision
approves, it returns `converted = true` with the `G1` token replaced by `G0`
via the word-boundary-safe case-insensitive substitution (or `G0 ` prepended
when the stripped line has no word-boundary G token), all `F` tokens
stripped, and a trailing newline preserved. -/
theorem claim3_convert_line_cases (z_safe : ℚ) (conservative : Bool)
    (line : List Char) (st : MachineState) :
    ((parse_line (strip line) = Parsed.empty ∨
        should_convert_to_rapid z_safe conservative (parse_line (strip line)) st = false) →
      convert_line z_safe conservative line st = (line, false)) ∧
    (parse_line (strip line) ≠ Parsed.empty →
      should_convert_to_rapid z_safe conservative (parse_line (strip line)) st = true →
      convert_line z_safe conservative line st =
        (stripF (if hasGCommand (strip line) = true then replaceG1 (strip line)
            else 'G' :: '0' :: ' ' :: strip line) ++
          (if line.getLast? = some '\n' then ['\n'] else []), true)) := by
  constructor
  · intro h
    rcases h with h | h
    · simp [convert_line, h]
    · by_cases he : parse_line (strip line) = Parsed.empty
      · simp [convert_line, he]
      · simp [convert_line, he, h]
  · intro he hs
    have hs2 : ¬(should_convert_to_rapid z_safe conservative
        (parse_line (strip line)) st = false) := by simp [hs]
    simp only [convert_line]
    rw [if_neg he, if_neg hs2]
    split_ifs <;> simp

theorem claim3_witness :
    parse_line (strip (chars "g01 X5 F100\n")) ≠ Parsed.empty ∧
    should_convert_to_rapid 17 true (parse_line (strip (chars "g01 X5 F100\n")))
      { initialState with z := 20 } = true ∧
    convert_line 17 true (chars "g01 X5 F100\n") { initialState with z := 20 } =
      (chars "G0 X5\n", true) := by
  refine ⟨by with_unfolding_all decide, by with_unfolding_all decide, ?_⟩
  have h := (claim3_convert_line_cases 17 true (chars "g01 X5 F100\n")
      { initialState with z := 20 }).2
    (by with_unfolding_all decide) (by with_unfolding_all decide)
  rw [h]
  with_unfolding_all decide

/-- C2: in the forward pass, a line that was not converted, parses with no G
code but some X/Y/Z/I/J/K field, and follows a converted line, is emitted as
the original stripped text with `G1 ` prepended (newline preserved), and that
same injected text is what advances the simulator. -/
theorem claim2_g1_injection (z_safe : ℚ) (conservative : Bool) (rapid : ℚ)
    (st : MachineState) (n : ℕ) (line : List Char) (rest : List (List Char))
    (h1 : (convert_line z_safe conservative line st).2 = false)
    (h2 : (parse_line (strip line)).getG = none)
    (h3 : (parse_line (strip line)).getX ≠ none ∨ (parse_line (strip line)).getY ≠ none ∨
      (parse_line (strip line)).getZ ≠ none ∨ (parse_line (strip line)).getI ≠ none ∨
      (parse_line (strip line)).getJ ≠ none ∨ (parse_line (strip line)).getK ≠ none) :
    convertLoop z_safe conservative rapid st true n (line :: rest) =
      ⟨injectedLine line ::
          (convertLoop z_safe conservative rapid
            (execute_line rapid st (injectedLine line)).1 false (n + 1) rest).outputs,
        (convertLoop z_safe conservative rapid
          (execute_line rapid st (injectedLine line)).1 false (n + 1) rest).conversions,
        (execute_line rapid st (injectedLine line)).2.toList ++
          (convertLoop z_safe conservative rapid
            (execute_line rapid st (injectedLine line)).1 false (n + 1) rest).moves,
        (convertLoop z_safe conservative rapid
          (execute_line rapid st (injectedLine line)).1 false (n + 1) rest).final⟩ := by
  simp [convertLoop, injectedLine, h1, h2, h3]

theorem claim2_witness :
    (convert_line 17 true (chars "X10 Y10")
      { initialState with z := 25, current_g := some 0 }).2 = false ∧
    convertLoop 17 true 5000 { initialState with z := 25, current_g := some 0 } true 1
        [chars "X10 Y10"] =
      ⟨injectedLine (chars "X10 Y10") ::
          (convertLoop 17 true 5000
            (execute_line 5000 { initialState with z := 25, current_g := some 0 }
              (injectedLine (chars "X10 Y10"))).1 false 2 []).outputs,
        (convertLoop 17 true 5000
          (execute_line 5000 { initialState with z := 25, current_g := some 0 }
            (injectedLine (chars "X10 Y10"))).1 false 2 []).conversions,
        (execute_line 5000 { initialState with z := 25, current_g := some 0 }
            (injectedLine (chars "X10 Y10"))).2.toList ++
          (convertLoop 17 true 5000
            (execute_line 5000 { initialState with z := 25, current_g := some 0 }
              (injectedLine (chars "X10 Y10"))).1 false 2 []).moves,
        (convertLoop 17 true 5000
          (execute_line 5000 { initialState with z := 25, current_g := some 0 }
            (injectedLine (chars "X10 Y10"))).1 false 2 []).final⟩ :=
  ⟨by with_unfolding_all decide,
   claim2_g1_injection 17 true 5000 { initialState with z := 25, current_g := some 0 } 1
     (chars "X10 Y10") [] (by with_unfolding_all decide) (by with_unfolding_all decide)
     (by with_unfolding_all decide)⟩

theorem convertLoop_outputs_length (z_safe : ℚ) (conservative : Bool) (rapid : ℚ) :
    ∀ (lines : List (List Char)) (st : MachineState) (wp : Bool) (n : ℕ),
      (convertLoop z_safe conservative rapid st wp n lines).outputs.length = lines.length := by
  intro lines
  induction lines with
  | nil => intro st wp n; rfl
  | cons line rest ih =>
    intro st wp n
    simp only [convertLoop]
    simp [ih]

/-- C7 (amended): the pass emits exactly one output line per input line and
reports `total_lines` equal to the input count; and a line ending in `'\n'`
keeps that `'\n'` through `convert_line`.  (A carriage-return style ending is
not preserved on rewritten lines, see the counterexample.) -/
theorem claim7_line_count_and_newline :
    (∀ (z_safe : ℚ) (conservative : Bool) (rapid : ℚ) (lines : List (List Char)),
      (convert_file z_safe conservative rapid lines).output_lines.length = lines.length ∧
      (convert_file z_safe conservative rapid lines).total_lines = lines.length) ∧
    (∀ (z_safe : ℚ) (conservative : Bool) (line : List Char) (st : MachineState),
      line.getLast? = some '\n' →
      ((convert_line z_safe conservative line st).1).getLast? = some '\n') := by
  constructor
  · intro z_safe conservative rapid lines
    exact ⟨convertLoop_outputs_length z_safe conservative rapid lines initialState false 1, rfl⟩
  · intro z_safe conservative line st h
    simp only [convert_line]
    split_ifs with h1 h2 <;> simp [h]

/-- C7 counterexample: the claim as stated promises preservation of
carriage-return line endings, but a converted `"G1 X10 Y10\r\n"` line is
emitted as `"G0 X10 Y10\n"`: its `"\r\n"` ending becomes `"\n"`. -/
theorem claim7_counterexample :
    lineEnding ((convert_file 17 true 5000
        [chars "G10 Z20\n", chars "G1 X10 Y10\r\n"]).output_lines.getD 1 []) ≠
      lineEnding (chars "G1 X10 Y10\r\n") := by
  with_unfolding_all decide

theorem claim7_witness :
    (convert_file 17 true 5000 [chars "G10 Z20\n", chars "G1 X10 Y10\n"]).output_lines.length
      = 2 ∧
    ((convert_line 17 true (chars "G1 X10 Y10\n")
        { initialState with z := 20 }).1).getLast? = some '\n' :=
  ⟨(claim7_line_count_and_newline.1 17 true 5000
      [chars "G10 Z20\n", chars "G1 X10 Y10\n"]).1,
   claim7_line_count_and_newline.2 17 true (chars "G1 X10 Y10\n")
     { initialState with z := 20 } (by with_unfolding_all decide)⟩

theorem moveRate_eq_rateSpec (rapid : ℚ) (st : MachineState) (l : List Char)
    (hmode : (postModalState st (parse_line l)).current_g = some 0 ∨
      (postModalState st (parse_line l)).current_g = some 1 ∨
      (postModalState st (parse_line l)).current_g = some 2 ∨
      (postModalState st (parse_line l)).current_g = some 3) :
    moveRate rapid (postModalState st (parse_line l)) = rateSpec rapid st l := by
  unfold moveRate rateSpec
  rcases hmode with h | h | h | h <;> simp [h]

/-- C4 (amended): every emitted move record has `distance` equal to the
Euclidean norm of the per-axis deltas, `time_s = (distance / rate) * 60` when
the rate (rapid rate for mode 0, else feed rate with fallback 1.0) is
positive and `0` otherwise (zero and negative rates both give 0), and the
time is added to `total_time_seconds`. -/
theorem claim4_time_formula (rapid : ℚ) (st : MachineState) (l : List Char)
    (m : MoveInfo) (hm : (execute_line rapid st l).2 = some m) :
    m.distance = Real.sqrt (((m.toPos.1 - m.fromPos.1) ^ 2 +
      (m.toPos.2.1 - m.fromPos.2.1) ^ 2 + (m.toPos.2.2 - m.fromPos.2.2) ^ 2 : ℚ) : ℝ) ∧
    m.time_s = (if 0 < rateSpec rapid st l then
      m.distance / ((rateSpec rapid st l : ℚ) : ℝ) else 0) * 60 ∧
    (execute_line rapid st l).1.total_time_seconds =
      st.total_time_seconds + m.time_s := by
  by_cases h10 : (parse_line l).getG = some 10 ∧ (parse_line l).getZ ≠ none
  · simp [execute_line, h10] at hm
  · by_cases hmode : (postModalState st (parse_line l)).current_g = some 0 ∨
        (postModalState st (parse_line l)).current_g = some 1 ∨
        (postModalState st (parse_line l)).current_g = some 2 ∨
        (postModalState st (parse_line l)).current_g = some 3
    · by_cases hmove :
          new_coord (postModalState st (parse_line l)).absolute_mode
              (postModalState st (parse_line l)).x (parse_line l).getX ≠
            (postModalState st (parse_line l)).x ∨
          new_coord (postModalState st (parse_line l)).absolute_mode
              (postModalState st (parse_line l)).y (parse_line l).getY ≠
            (postModalState st (parse_line l)).y ∨
          new_coord (postModalState st (parse_line l)).absolute_mode
              (postModalState st (parse_line l)).z (parse_line l).getZ ≠
            (postModalState st (parse_line l)).z
      · simp only [execute_line, h10, hmode, hmove, if_true, if_false,
          ite_true, ite_false, Option.some.injEq] at hm
        subst hm
        refine ⟨rfl, ?_, ?_⟩
        · rw [moveRate_eq_rateSpec rapid st l hmode]
        · simp only [execute_line, h10, hmode, hmove, if_true, if_false,
            ite_true, ite_false]
          rw [postModalState_total]
      · simp [execute_line, h10, hmode, hmove] at hm
    · simp [execute_line, h10, hmode] at hm

/-- C4 counterexample: with a negative feed rate (`G1 X3 F-100`), the code
gives the move zero elapsed time, while the claim's formula
`time_seconds = (distance / rate) * 60` (rate here is `-100`, not `0`) would
give a negative value: the claimed equation fails at this input. -/
theorem claim4_counterexample :
    (execute_line 5000 initialState (chars "G1 X3 F-100")).2.isSome = true ∧
    (execute_line 5000 initialState (chars "G1 X3 F-100")).1.feed_rate = some (-100) ∧
    ((execute_line 5000 initialState (chars "G1 X3 F-100")).2.getD default).distance = 3 ∧
    ((execute_line 5000 initialState (chars "G1 X3 F-100")).2.getD default).time_s = 0 ∧
    ((execute_line 5000 initialState (chars "G1 X3 F-100")).2.getD default).distance /
        ((-100 : ℝ)) * 60 ≠
      ((execute_line 5000 initialState (chars "G1 X3 F-100")).2.getD default).time_s := by
  have hd : ((execute_line 5000 initialState (chars "G1 X3 F-100")).2.getD default).distance
      = Real.sqrt (((9 : ℚ)) : ℝ) := by with_unfolding_all rfl
  have hd3 : ((execute_line 5000 initialState (chars "G1 X3 F-100")).2.getD
      default).distance = 3 := by
    rw [hd]
    rw [show (((9 : ℚ)) : ℝ) = 3 ^ 2 by norm_num]
    rw [Real.sqrt_sq (by norm_num : (0:ℝ) ≤ 3)]
  have ht : ((execute_line 5000 initialState (chars "G1 X3 F-100")).2.getD default).time_s
      = (0 : ℝ) * 60 := by with_unfolding_all rfl
  have ht0 : ((execute_line 5000 initialState (chars "G1 X3 F-100")).2.getD
      default).time_s = 0 := by rw [ht]; norm_num
  refine ⟨by with_unfolding_all decide, by with_unfolding_all decide, hd3, ht0, ?_⟩
  rw [hd3, ht0]
  norm_num

theorem claim4_witness :
    (execute_line 5000 initialState (chars "G1 X3 Y4 F600")).2.isSome = true ∧
    ((execute_line 5000 initialState (chars "G1 X3 Y4 F600")).2.getD default).distance = 5 ∧
    ((execute_line 5000 initialState (chars "G1 X3 Y4 F600")).2.getD default).time_s
      = 1 / 2 := by
  have hm : (execute_line 5000 initialState (chars "G1 X3 Y4 F600")).2 =
      some ((execute_line 5000 initialState (chars "G1 X3 Y4 F600")).2.getD default) := by
    with_unfolding_all rfl
  have h := claim4_time_formula 5000 initialState (chars "G1 X3 Y4 F600") _ hm
  have hto : ((execute_line 5000 initialState (chars "G1 X3 Y4 F600")).2.getD
      default).toPos = (3, 4, 0) := by with_unfolding_all decide
  have hfrom : ((execute_line 5000 initialState (chars "G1 X3 Y4 F600")).2.getD
      default).fromPos = (0, 0, 0) := by with_unfolding_all decide
  have hrate : rateSpec 5000 initialState (chars "G1 X3 Y4 F600") = 600 := by
    with_unfolding_all decide
  have hd5 : ((execute_line 5000 initialState (chars "G1 X3 Y4 F600")).2.getD
      default).distance = 5 := by
    have h1 := h.1
    rw [hto, hfrom] at h1
    rw [h1]
    rw [show ((((3 : ℚ) - 0) ^ 2 + ((4 : ℚ) - 0) ^ 2 + ((0 : ℚ) - 0) ^ 2 : ℚ) : ℝ)
      = 5 ^ 2 by norm_num]
    rw [Real.sqrt_sq (by norm_num : (0:ℝ) ≤ 5)]
  refine ⟨by with_unfolding_all decide, hd5, ?_⟩
  have h2 := h.2.1
  rw [hrate, hd5] at h2
  rw [h2]
  norm_num

/-- C8 (amended): a move record's `feed_rate` is `null` for a rapid, and for
a feed move it stores the machine's current feed rate — which is itself
`null` when no `F` was ever set, even though the fallback rate 1.0 was used
for the time computation. -/
theorem claim8_feed_rate_stored (rapid : ℚ) (st : MachineState) (l : List Char)
    (m : MoveInfo) (hm : (execute_line rapid st l).2 = some m) :
    (m.type = MoveType.rapid ↔ (postModalState st (parse_line l)).current_g = some 0) ∧
    (m.type = MoveType.rapid → m.feed_rate = none) ∧
    (m.type = MoveType.feed → m.feed_rate = (postModalState st (parse_line l)).feed_rate) := by
  by_cases h10 : (parse_line l).getG = some 10 ∧ (parse_line l).getZ ≠ none
  · simp [execute_line, h10] at hm
  · by_cases hmode : (postModalState st (parse_line l)).current_g = some 0 ∨
        (postModalState st (parse_line l)).current_g = some 1 ∨
        (postModalState st (parse_line l)).current_g = some 2 ∨
        (postModalState st (parse_line l)).current_g = some 3
    · by_cases hmove :
          new_coord (postModalState st (parse_line l)).absolute_mode
              (postModalState st (parse_line l)).x (parse_line l).getX ≠
            (postModalState st (parse_line l)).x ∨
          new_coord (postModalState st (parse_line l)).absolute_mode
              (postModalState st (parse_line l)).y (parse_line l).getY ≠
            (postModalState st (parse_line l)).y ∨
          new_coord (postModalState st (parse_line l)).absolute_mode
              (postModalState st (parse_line l)).z (parse_line l).getZ ≠
            (postModalState st (parse_line l)).z
      · simp only [execute_line, h10, hmode, hmove, if_true, if_false,
          ite_true, ite_false, Option.some.injEq] at hm
        subst hm
        by_cases h0 : (postModalState st (parse_line l)).current_g = some 0 <;>
          simp [h0]
      · simp [execute_line, h10, hmode, hmove] at hm
    · simp [execute_line, h10, hmode] at hm

/-- C8 counterexample: `G1 X3 Y4` executed before any `F` was seen yields a
feed move whose record stores a `null` feed rate (so `null` does not hold
exactly for rapids), while the time `300 = (5 / 1) * 60` shows the fallback
rate 1.0 was the rate actually used. -/
theorem claim8_counterexample :
    (execute_line 5000 initialState (chars "G1 X3 Y4")).2.isSome = true ∧
    ((execute_line 5000 initialState (chars "G1 X3 Y4")).2.getD default).type
      = MoveType.feed ∧
    ((execute_line 5000 initialState (chars "G1 X3 Y4")).2.getD default).feed_rate = none ∧
    ((execute_line 5000 initialState (chars "G1 X3 Y4")).2.getD default).time_s = 300 := by
  have ht : ((execute_line 5000 initialState (chars "G1 X3 Y4")).2.getD default).time_s
      = Real.sqrt (((25 : ℚ)) : ℝ) / (((1 : ℚ)) : ℝ) * 60 := by with_unfolding_all rfl
  have ht300 : ((execute_line 5000 initialState (chars "G1 X3 Y4")).2.getD
      default).time_s = 300 := by
    rw [ht]
    rw [show (((25 : ℚ)) : ℝ) = 5 ^ 2 by norm_num]
    rw [Real.sqrt_sq (by norm_num : (0:ℝ) ≤ 5)]
    norm_num
  exact ⟨by with_unfolding_all decide, by with_unfolding_all decide,
    by with_unfolding_all decide, ht300⟩

theorem claim8_witness :
    (execute_line 5000 initialState (chars "G0 X1")).2.isSome = true ∧
    ((execute_line 5000 initialState (chars "G0 X1")).2.getD default).type
      = MoveType.rapid ∧
    ((execute_line 5000 initialState (chars "G0 X1")).2.getD default).feed_rate = none := by
  have hm : (execute_line 5000 initialState (chars "G0 X1")).2 =
      some ((execute_line 5000 initialState (chars "G0 X1")).2.getD default) := by
    with_unfolding_all rfl
  have h := claim8_feed_rate_stored 5000 initialState (chars "G0 X1") _ hm
  exact ⟨by with_unfolding_all decide, by with_unfolding_all decide,
    h.2.1 (by with_unfolding_all decide)⟩

end GCode
